import Mathlib

/-!
Verification of `src/frontend-mcp-server/demo.py`.

The script constructs an `MCPConnector` descriptor, then inside a
`try`/`except Exception`/`finally` block awaits `connector.connect()`,
awaits `connector.tool_call(ToolCallParams(...))`, prints the result, and
in the `finally` block awaits `connector.close()`.  The `except` clause
prints one line `Error: <message>`; the entry point is
`asyncio.run(get_react_docs())`.

The external `mcp` library is opaque: we model the behavior of each of its
calls (constructor, `connect`, `tool_call`, `close`) by an oracle record
`World` saying whether the call succeeds or raises, and which value or
error it produces.  A run of the script is then a pure function from the
oracle to a trace of observable events (library calls and printed lines)
together with a final outcome (normal return, or an escaping exception).

Python fine points modelled faithfully:
  - `except Exception` catches every `Exception` but not
    `BaseException`-only classes such as `asyncio.CancelledError`
    (cancellation at an `await` point); `isException` records this.
  - the `finally` block runs on every exit path of the `try` statement,
    so `close` is attempted even when `connect` raised;
  - an exception raised inside the `finally` block replaces any pending
    exception and escapes `get_react_docs` uncaught;
  - `asyncio.run` propagates an escaping exception, which terminates the
    process with a nonzero status; normal return gives status 0.
-/

namespace Demo

/-- The transport kind of the service; the script uses `MCPServiceType.stdio`. -/
inductive MCPServiceType
  | stdio
deriving DecidableEq, Repr

/-- The connection descriptor constructed at the top of `get_react_docs`. -/
structure MCPConnector where
  server_name : String
  service_type : MCPServiceType
deriving DecidableEq, Repr

/-- Arguments to `connector.tool_call`, as in the source. -/
structure ToolCallParams where
  tool_name : String
  arguments : List (String × String)
deriving DecidableEq, Repr

/-- The value returned by a successful `tool_call`; the script reads
its `.result` field and prints it. -/
structure ToolCallResult where
  result : String
deriving DecidableEq, Repr

/-- Errors the external library may raise.  `connectionError`,
`invocationError` and `otherError` model Python `Exception` subclasses
(caught by `except Exception`); `cancelled` models
`asyncio.CancelledError`, which since Python 3.8 derives only
`BaseException` and is therefore not caught by `except Exception`. -/
inductive PyError
  | connectionError (msg : String)
  | invocationError (msg : String)
  | otherError (msg : String)
  | cancelled
deriving DecidableEq, Repr

/-- Whether the error is an `Exception` in Python's hierarchy,
i.e. whether `except Exception` catches it. -/
def isException : PyError → Bool
  | PyError.cancelled => false
  | _ => true

/-- The message `str(e)` used by `print(f"Error: ...")`. -/
def errMsg : PyError → String
  | PyError.connectionError m => m
  | PyError.invocationError m => m
  | PyError.otherError m => m
  | PyError.cancelled => "CancelledError"

/-- Oracle describing what each external library call does in one run:
`none` means the call returns normally, `some e` that it raises `e`. -/
structure World where
  constructorOutcome : Option PyError
  connectOutcome : Option PyError
  toolCallOutcome : Except PyError ToolCallResult
  closeOutcome : Option PyError
deriving Repr

/-- Observable events of a run: external library calls as they are
issued, and lines written to standard output. -/
inductive Event
  | construct (c : MCPConnector)
  | connect
  | toolCall (p : ToolCallParams)
  | close
  | printLine (s : String)
deriving DecidableEq, Repr

/-- Final outcome of `get_react_docs`: normal return, or an exception
escaping the function. -/
inductive Outcome
  | normal
  | raised (e : PyError)
deriving DecidableEq, Repr

/-- The fixed descriptor built by `MCPConnector(server_name=..., service_type=...)`. -/
def theConnector : MCPConnector :=
  { server_name := "github.com/awslabs/mcp/tree/main/src/frontend-mcp-server"
    service_type := MCPServiceType.stdio }

/-- The fixed request built by `ToolCallParams(tool_name=..., arguments=...)`. -/
def theParams : ToolCallParams :=
  { tool_name := "GetReactDocsByTopic"
    arguments := [("topic", "essential-knowledge")] }

/-- The `try` body: `await connector.connect()`, then
`result = await connector.tool_call(theParams)`, then the two `print`
calls.  Returns the events it performed and the exception it raised,
if any. -/
def tryBody (w : World) : List Event × Option PyError :=
  match w.connectOutcome with
  | some e => ([Event.connect], some e)
  | none =>
    match w.toolCallOutcome with
    | Except.error e => ([Event.connect, Event.toolCall theParams], some e)
    | Except.ok r =>
      ([Event.connect, Event.toolCall theParams,
        Event.printLine "Retrieved React Documentation for Essential Knowledge:",
        Event.printLine r.result], none)

/-- The exception raised by the `try` body, if any. -/
def tryErr (w : World) : Option PyError := (tryBody w).2

/-- The `except Exception as e: print(f"Error: ...")` clause: an
`Exception` is caught and one line printed; a bare `BaseException`
(cancellation) is left pending. -/
def handlerStep : Option PyError → List Event × Option PyError
  | none => ([], none)
  | some e =>
    if isException e then ([Event.printLine ("Error: " ++ errMsg e)], none)
    else ([], some e)

/-- The `finally: await connector.close()` clause.  `close` is always
called; an exception it raises replaces any pending exception, otherwise
the pending exception (if any) resumes propagation. -/
def finallyStep (w : World) (pending : Option PyError) : List Event × Outcome :=
  match w.closeOutcome with
  | some e => ([Event.close], Outcome.raised e)
  | none =>
    match pending with
    | some e => ([Event.close], Outcome.raised e)
    | none => ([Event.close], Outcome.normal)

/-- The whole of `get_react_docs`: descriptor construction (before the
`try` statement, so a constructor exception escapes at once), then the
`try`/`except`/`finally` statement. -/
def get_react_docs (w : World) : List Event × Outcome :=
  match w.constructorOutcome with
  | some e => ([], Outcome.raised e)
  | none =>
    let t := tryBody w
    let h := handlerStep t.2
    let f := finallyStep w h.2
    (Event.construct theConnector :: (t.1 ++ h.1 ++ f.1), f.2)

/-- The event trace of one run. -/
def trace (w : World) : List Event := (get_react_docs w).1

/-- The outcome of one run. -/
def outcome (w : World) : Outcome := (get_react_docs w).2

/-- Process exit status of `asyncio.run(get_react_docs())` under
`if __name__ == "__main__"`: 0 on normal return, nonzero (1) when an
exception propagates out of the coroutine. -/
def exitCode (w : World) : Nat :=
  match outcome w with
  | Outcome.normal => 0
  | Outcome.raised _ => 1

/-- Running the script from the command line: `demo.py` never reads
`sys.argv`, any configuration file, or `os.environ`, so the run is the
same function of the library oracle whatever the arguments and
environment are. -/
def run_script (_argv : List String) (_env : List (String × String))
    (w : World) : List Event × Outcome :=
  get_react_docs w

/-- Tests whether an event is the `close` call. -/
def isCloseEv : Event → Bool
  | Event.close => true
  | _ => false

/-- Tests whether an event is the `connect` call. -/
def isConnectEv : Event → Bool
  | Event.connect => true
  | _ => false

/-- Tests whether an event is a `tool_call` invocation. -/
def isToolCallEv : Event → Bool
  | Event.toolCall _ => true
  | _ => false

/-- Tests whether an event is a printed line. -/
def isPrintEv : Event → Bool
  | Event.printLine _ => true
  | _ => false

/-- A world where every external call succeeds. -/
def wOk : World :=
  { constructorOutcome := none, connectOutcome := none
    toolCallOutcome := Except.ok { result := "docs" }, closeOutcome := none }

/-- A world where `connect` raises `ConnectionError`. -/
def wConnectFail : World :=
  { constructorOutcome := none
    connectOutcome := some (PyError.connectionError "connection refused")
    toolCallOutcome := Except.ok { result := "docs" }, closeOutcome := none }

/-- A world where `connect` succeeds and `tool_call` raises `InvocationError`. -/
def wInvokeFail : World :=
  { constructorOutcome := none, connectOutcome := none
    toolCallOutcome := Except.error (PyError.invocationError "tool failed")
    closeOutcome := none }

/-- A world where the whole `try` body succeeds but `close` raises. -/
def wCloseFail : World :=
  { constructorOutcome := none, connectOutcome := none
    toolCallOutcome := Except.ok { result := "docs" }
    closeOutcome := some (PyError.otherError "close failed") }

/-- A world where `connect` fails and `close` (called on the
never-established connection) also raises. -/
def wConnectFailCloseFail : World :=
  { constructorOutcome := none
    connectOutcome := some (PyError.connectionError "connection refused")
    toolCallOutcome := Except.ok { result := "docs" }
    closeOutcome := some (PyError.otherError "close failed") }

/-- A world where the calling context is cancelled while suspended in
`await connector.connect()`. -/
def wCancelConnect : World :=
  { constructorOutcome := none, connectOutcome := some PyError.cancelled
    toolCallOutcome := Except.ok { result := "docs" }, closeOutcome := none }

/-- A world where the `MCPConnector(...)` constructor itself raises. -/
def wCtorFail : World :=
  { constructorOutcome := some (PyError.otherError "bad descriptor")
    connectOutcome := none
    toolCallOutcome := Except.ok { result := "docs" }, closeOutcome := none }

/-- `w` with the `close` error (if any) removed; used to state that a
`close` failure changes nothing in the observable trace. -/
def eraseCloseError (w : World) : World :=
  { constructorOutcome := w.constructorOutcome
    connectOutcome := w.connectOutcome
    toolCallOutcome := w.toolCallOutcome
    closeOutcome := none }

end Demo

section Scratch
open Demo

example :
    trace { constructorOutcome := none, connectOutcome := none,
            toolCallOutcome := Except.ok { result := "docs" },
            closeOutcome := none } =
      [Event.construct theConnector, Event.connect, Event.toolCall theParams,
       Event.printLine "Retrieved React Documentation for Essential Knowledge:",
       Event.printLine "docs", Event.close] := by decide

example :
    trace { constructorOutcome := none,
            connectOutcome := some (PyError.connectionError "refused"),
            toolCallOutcome := Except.ok { result := "docs" },
            closeOutcome := none } =
      [Event.construct theConnector, Event.connect,
       Event.printLine "Error: refused", Event.close] := by decide

example :
    exitCode { constructorOutcome := none,
               connectOutcome := some (PyError.connectionError "refused"),
               toolCallOutcome := Except.ok { result := "docs" },
               closeOutcome := none } = 0 := by decide

example :
    outcome { constructorOutcome := none, connectOutcome := some PyError.cancelled,
              toolCallOutcome := Except.ok { result := "docs" },
              closeOutcome := none } = Outcome.raised PyError.cancelled := by decide

example :
    outcome { constructorOutcome := none, connectOutcome := none,
              toolCallOutcome := Except.ok { result := "docs" },
              closeOutcome := some (PyError.otherError "close failed") } =
      Outcome.raised (PyError.otherError "close failed") := by decide

end Scratch

namespace Demo

/-- C1: for every run in which the descriptor was constructed (so the
`try` block is entered), `close` is called exactly once before the run's
call sequence ends — it is the last event of the trace — on every exit
path of `get_react_docs`, whether `connect` and the invocation succeed
or raise. -/
theorem close_called_once_on_every_exit_path (w : World)
    (hc : w.constructorOutcome = none) :
    (trace w).countP isCloseEv = 1 ∧ (trace w).getLast? = some Event.close := by
  rcases hcn : w.connectOutcome with _ | e1
  · rcases htc : w.toolCallOutcome with e2 | r
    · rcases hcl : w.closeOutcome with _ | e3 <;> cases e2 <;>
        simp [trace, get_react_docs, tryBody, handlerStep, finallyStep,
              isCloseEv, isException, hc, hcn, htc, hcl]
    · rcases hcl : w.closeOutcome with _ | e3 <;>
        simp [trace, get_react_docs, tryBody, handlerStep, finallyStep,
              isCloseEv, isException, hc, hcn, htc, hcl]
  · rcases hcl : w.closeOutcome with _ | e3 <;> cases e1 <;>
      simp [trace, get_react_docs, tryBody, handlerStep, finallyStep,
            isCloseEv, isException, hc, hcn, hcl]

/-- Witness for C1 at a concrete world in which `tool_call` raises. -/
theorem close_called_once_on_every_exit_path_witness :
    (trace wInvokeFail).countP isCloseEv = 1
    ∧ (trace wInvokeFail).getLast? = some Event.close :=
  close_called_once_on_every_exit_path wInvokeFail rfl

/-- C2 counterexample: in the run where `connect` raises
`ConnectionError`, the claim says `close` is never called on that
connection, but the `finally` block does call `close`. -/
theorem connect_fail_close_still_called :
    wConnectFail.connectOutcome = some (PyError.connectionError "connection refused")
    ∧ Event.close ∈ trace wConnectFail := by decide

/-- C2 (amended): when `connect` fails, `tool_call` is never called on
that connection, but `close` IS still called on it, exactly once, because
the `finally` block runs unconditionally. -/
theorem connect_fail_no_invoke_but_close_called (w : World) (e : PyError)
    (hc : w.constructorOutcome = none) (h : w.connectOutcome = some e) :
    (trace w).countP isToolCallEv = 0 ∧ (trace w).countP isCloseEv = 1 := by
  rcases hcl : w.closeOutcome with _ | e3 <;> cases e <;>
    simp [trace, get_react_docs, tryBody, handlerStep, finallyStep,
          isCloseEv, isToolCallEv, isException, hc, h, hcl]

/-- Witness for the amended C2 at the concrete connect-failure world. -/
theorem connect_fail_no_invoke_but_close_called_witness :
    (trace wConnectFail).countP isToolCallEv = 0
    ∧ (trace wConnectFail).countP isCloseEv = 1 :=
  connect_fail_no_invoke_but_close_called wConnectFail
    (PyError.connectionError "connection refused") rfl rfl

/-- C10: if the `MCPConnector(...)` construction itself raises — it sits
before the `try` block — then nothing is printed (in particular no
`Error:` line), `close` is never called, and the error escapes
`get_react_docs` unhandled, giving a nonzero exit status. -/
theorem constructor_error_escapes_unhandled (w : World) (e : PyError)
    (h : w.constructorOutcome = some e) :
    trace w = []
    ∧ (∀ s, Event.printLine s ∉ trace w)
    ∧ Event.close ∉ trace w
    ∧ outcome w = Outcome.raised e
    ∧ exitCode w = 1 := by
  simp [trace, outcome, exitCode, get_react_docs, h]

/-- Witness for C10 at the concrete constructor-failure world. -/
theorem constructor_error_escapes_unhandled_witness :
    trace wCtorFail = []
    ∧ (∀ s, Event.printLine s ∉ trace wCtorFail)
    ∧ Event.close ∉ trace wCtorFail
    ∧ outcome wCtorFail = Outcome.raised (PyError.otherError "bad descriptor")
    ∧ exitCode wCtorFail = 1 :=
  constructor_error_escapes_unhandled wCtorFail (PyError.otherError "bad descriptor") rfl

end Demo

namespace Demo

/-- C3 counterexample: in the run where `connect` and `tool_call`
succeed but `close` raises inside the `finally` block, an error is
raised inside the call sequence (by `close`), yet no `Error:` line is
printed and the process exits with status 1, not 0. -/
theorem close_error_breaks_exit_zero :
    outcome wCloseFail = Outcome.raised (PyError.otherError "close failed")
    ∧ exitCode wCloseFail = 1
    ∧ trace wCloseFail =
        [Event.construct theConnector, Event.connect, Event.toolCall theParams,
         Event.printLine "Retrieved React Documentation for Essential Knowledge:",
         Event.printLine "docs", Event.close]
    ∧ Event.printLine ("Error: " ++ errMsg (PyError.otherError "close failed"))
        ∉ trace wCloseFail := by decide

/-- C3 (amended): the exit status is 0 on normal completion, and when an
error (a Python `Exception`) is raised by `connect` or `tool_call`
inside the `try` body — and `close` itself does not raise — a single
line `Error: <message>` is printed and the process still exits with
status 0; an error raised by `close` instead escapes and yields a
nonzero exit status. -/
theorem exit_zero_and_single_error_line (w : World)
    (hc : w.constructorOutcome = none) (hcl : w.closeOutcome = none) :
    (tryErr w = none → exitCode w = 0)
    ∧ (∀ e, tryErr w = some e → isException e = true →
        (trace w).countP isPrintEv = 1
        ∧ Event.printLine ("Error: " ++ errMsg e) ∈ trace w
        ∧ exitCode w = 0) := by
  rcases hcn : w.connectOutcome with _ | e1
  · rcases htc : w.toolCallOutcome with e2 | r
    · cases e2 <;>
        simp [trace, outcome, exitCode, tryErr, get_react_docs, tryBody,
              handlerStep, finallyStep, isPrintEv, isException, errMsg,
              hc, hcn, htc, hcl]
    · simp [trace, outcome, exitCode, tryErr, get_react_docs, tryBody,
            handlerStep, finallyStep, isPrintEv, isException,
            hc, hcn, htc, hcl]
  · cases e1 <;>
      simp [trace, outcome, exitCode, tryErr, get_react_docs, tryBody,
            handlerStep, finallyStep, isPrintEv, isException, errMsg,
            hc, hcn, hcl]

/-- Witness for the amended C3 at the concrete invoke-failure world. -/
theorem exit_zero_and_single_error_line_witness :
    (tryErr wInvokeFail = none → exitCode wInvokeFail = 0)
    ∧ (∀ e, tryErr wInvokeFail = some e → isException e = true →
        (trace wInvokeFail).countP isPrintEv = 1
        ∧ Event.printLine ("Error: " ++ errMsg e) ∈ trace wInvokeFail
        ∧ exitCode wInvokeFail = 0) :=
  exit_zero_and_single_error_line wInvokeFail rfl rfl

/-- C4: a run of the script (whatever the command line and environment,
which the script never reads) issues at most one tool invocation, and
exactly one as soon as `connect` succeeds; every invocation carries the
fixed tool name `GetReactDocsByTopic` and arguments
`topic = essential-knowledge`; the only connection descriptor ever
constructed is the fixed one; and on success the result payload is
printed to standard output. -/
theorem single_fixed_invocation (w : World) (argv : List String)
    (env : List (String × String)) (hc : w.constructorOutcome = none)
    (hcn : w.connectOutcome = none) :
    run_script argv env w = get_react_docs w
    ∧ (trace w).countP isToolCallEv = 1
    ∧ Event.toolCall theParams ∈ trace w
    ∧ theParams.tool_name = "GetReactDocsByTopic"
    ∧ theParams.arguments = [("topic", "essential-knowledge")]
    ∧ (∀ p, Event.toolCall p ∈ trace w → p = theParams)
    ∧ (∀ c, Event.construct c ∈ trace w → c = theConnector)
    ∧ (∀ r, w.toolCallOutcome = Except.ok r → Event.printLine r.result ∈ trace w) := by
  refine ⟨rfl, ?_⟩
  rcases htc : w.toolCallOutcome with e2 | r
  · rcases hcl : w.closeOutcome with _ | e3 <;> cases e2 <;>
      simp [trace, get_react_docs, tryBody, handlerStep, finallyStep,
            isToolCallEv, isException, theParams, hc, hcn, htc, hcl]
  · rcases hcl : w.closeOutcome with _ | e3 <;>
      simp [trace, get_react_docs, tryBody, handlerStep, finallyStep,
            isToolCallEv, isException, theParams, hc, hcn, htc, hcl]

/-- Witness for C4 at the all-success world with empty command line and
environment. -/
theorem single_fixed_invocation_witness :
    run_script [] [] wOk = get_react_docs wOk
    ∧ (trace wOk).countP isToolCallEv = 1
    ∧ Event.toolCall theParams ∈ trace wOk
    ∧ theParams.tool_name = "GetReactDocsByTopic"
    ∧ theParams.arguments = [("topic", "essential-knowledge")]
    ∧ (∀ p, Event.toolCall p ∈ trace wOk → p = theParams)
    ∧ (∀ c, Event.construct c ∈ trace wOk → c = theConnector)
    ∧ (∀ r, wOk.toolCallOutcome = Except.ok r → Event.printLine r.result ∈ trace wOk) :=
  single_fixed_invocation wOk [] [] rfl rfl

end Demo

namespace Demo

/-- C5: a `tool_call` invocation only ever occurs after the descriptor
was constructed and `connect` was called and completed successfully: any
run whose trace contains a `toolCall` event has a successful
construction and a successful `connect`, and its trace begins
`construct`, `connect`, `toolCall` in that order. -/
theorem no_invoke_before_successful_connect (w : World) (p : ToolCallParams)
    (h : Event.toolCall p ∈ trace w) :
    w.constructorOutcome = none ∧ w.connectOutcome = none
    ∧ (trace w).take 3 =
        [Event.construct theConnector, Event.connect, Event.toolCall theParams] := by
  rcases hc : w.constructorOutcome with _ | e0
  · rcases hcn : w.connectOutcome with _ | e1
    · refine ⟨rfl, rfl, ?_⟩
      rcases htc : w.toolCallOutcome with e2 | r
      · rcases hcl : w.closeOutcome with _ | e3 <;> cases e2 <;>
          simp [trace, get_react_docs, tryBody, handlerStep, finallyStep,
                isException, hc, hcn, htc, hcl]
      · rcases hcl : w.closeOutcome with _ | e3 <;>
          simp [trace, get_react_docs, tryBody, handlerStep, finallyStep,
                isException, hc, hcn, htc, hcl]
    · exfalso
      rcases hcl : w.closeOutcome with _ | e3 <;> cases e1 <;>
        simp [trace, get_react_docs, tryBody, handlerStep, finallyStep,
              isException, hc, hcn, hcl] at h
  · exfalso
    simp [trace, get_react_docs, hc] at h

/-- Witness for C5 at the all-success world. -/
theorem no_invoke_before_successful_connect_witness :
    wOk.constructorOutcome = none ∧ wOk.connectOutcome = none
    ∧ (trace wOk).take 3 =
        [Event.construct theConnector, Event.connect, Event.toolCall theParams] :=
  no_invoke_before_successful_connect wOk theParams (by decide)

/-- C6: every `Exception` raised by `connect` or `tool_call` — whether a
`ConnectionError`, an `InvocationError`, or any other error — reaches the
single indiscriminate `except Exception` handler, which prints exactly
one line, `Error: <message>`, leaves the exit status at 0 (given `close`
itself succeeds), and treats any two errors with the same message
identically regardless of their kind. -/
theorem indiscriminate_error_handler (w : World) (e : PyError)
    (hc : w.constructorOutcome = none) (hcl : w.closeOutcome = none)
    (he : tryErr w = some e) (hex : isException e = true) :
    (trace w).countP isPrintEv = 1
    ∧ Event.printLine ("Error: " ++ errMsg e) ∈ trace w
    ∧ exitCode w = 0
    ∧ (∀ e₂, isException e₂ = true → errMsg e₂ = errMsg e →
        handlerStep (some e₂) = handlerStep (some e)) := by
  have hkind : ∀ e₂, isException e₂ = true → errMsg e₂ = errMsg e →
      handlerStep (some e₂) = handlerStep (some e) := by
    intro e₂ h₂ hm
    simp [handlerStep, hex, h₂, hm]
  rcases hcn : w.connectOutcome with _ | e1
  · rcases htc : w.toolCallOutcome with e2 | r
    · have heq : e2 = e := by
        have := he
        simp [tryErr, tryBody, hcn, htc] at this
        exact this
      subst heq
      exact ⟨by simp [trace, get_react_docs, tryBody, handlerStep, finallyStep,
                      isPrintEv, hc, hcn, htc, hcl, hex],
             by simp [trace, get_react_docs, tryBody, handlerStep, finallyStep,
                      hc, hcn, htc, hcl, hex],
             by simp [exitCode, outcome, get_react_docs, tryBody, handlerStep,
                      finallyStep, hc, hcn, htc, hcl, hex],
             hkind⟩
    · exfalso
      simp [tryErr, tryBody, hcn, htc] at he
  · have heq : e1 = e := by
      have := he
      simp [tryErr, tryBody, hcn] at this
      exact this
    subst heq
    exact ⟨by simp [trace, get_react_docs, tryBody, handlerStep, finallyStep,
                    isPrintEv, hc, hcn, hcl, hex],
           by simp [trace, get_react_docs, tryBody, handlerStep, finallyStep,
                    hc, hcn, hcl, hex],
           by simp [exitCode, outcome, get_react_docs, tryBody, handlerStep,
                    finallyStep, hc, hcn, hcl, hex],
           hkind⟩

/-- Witness for C6 at the concrete connect-failure world. -/
theorem indiscriminate_error_handler_witness :
    (trace wConnectFail).countP isPrintEv = 1
    ∧ Event.printLine
        ("Error: " ++ errMsg (PyError.connectionError "connection refused"))
        ∈ trace wConnectFail
    ∧ exitCode wConnectFail = 0
    ∧ (∀ e₂, isException e₂ = true →
        errMsg e₂ = errMsg (PyError.connectionError "connection refused") →
        handlerStep (some e₂) =
          handlerStep (some (PyError.connectionError "connection refused"))) :=
  indiscriminate_error_handler wConnectFail
    (PyError.connectionError "connection refused") rfl rfl rfl rfl

/-- C7: when `connect` fails, exactly one `connect` attempt appears in
the trace (no retry loop), no `tool_call` is ever attempted (no fallback),
and the failure is surfaced unchanged as the exception leaving the `try`
body. -/
theorem single_connect_attempt_no_retry (w : World) (e : PyError)
    (hc : w.constructorOutcome = none) (h : w.connectOutcome = some e) :
    (trace w).countP isConnectEv = 1
    ∧ (trace w).countP isToolCallEv = 0
    ∧ tryErr w = some e := by
  have h3 : tryErr w = some e := by simp [tryErr, tryBody, h]
  refine ⟨?_, ?_, h3⟩ <;>
    rcases hcl : w.closeOutcome with _ | e3 <;> cases e <;>
      simp [trace, get_react_docs, tryBody, handlerStep, finallyStep,
            isConnectEv, isToolCallEv, isException, hc, h, hcl]

/-- Witness for C7 at the concrete connect-failure world. -/
theorem single_connect_attempt_no_retry_witness :
    (trace wConnectFail).countP isConnectEv = 1
    ∧ (trace wConnectFail).countP isToolCallEv = 0
    ∧ tryErr wConnectFail = some (PyError.connectionError "connection refused") :=
  single_connect_attempt_no_retry wConnectFail
    (PyError.connectionError "connection refused") rfl rfl

/-- C8: if the calling context is cancelled while suspended in
`await connector.connect()` or `await connector.tool_call(...)` —
cancellation being an exception raised at the suspension point —
`close` is still executed (it is the last event of the run) before the
cancellation propagates out of `get_react_docs`. -/
theorem close_runs_before_cancellation_propagates (w : World)
    (hc : w.constructorOutcome = none)
    (h : w.connectOutcome = some PyError.cancelled
         ∨ (w.connectOutcome = none
            ∧ w.toolCallOutcome = Except.error PyError.cancelled)) :
    Event.close ∈ trace w
    ∧ (trace w).getLast? = some Event.close
    ∧ (w.closeOutcome = none → outcome w = Outcome.raised PyError.cancelled) := by
  rcases h with h | ⟨h1, h2⟩
  · rcases hcl : w.closeOutcome with _ | e3 <;>
      simp [trace, outcome, get_react_docs, tryBody, handlerStep, finallyStep,
            isException, hc, h, hcl]
  · rcases hcl : w.closeOutcome with _ | e3 <;>
      simp [trace, outcome, get_react_docs, tryBody, handlerStep, finallyStep,
            isException, hc, h1, h2, hcl]

/-- Witness for C8 at the world cancelled during `connect`. -/
theorem close_runs_before_cancellation_propagates_witness :
    Event.close ∈ trace wCancelConnect
    ∧ (trace wCancelConnect).getLast? = some Event.close
    ∧ (wCancelConnect.closeOutcome = none →
        outcome wCancelConnect = Outcome.raised PyError.cancelled) :=
  close_runs_before_cancellation_propagates wCancelConnect rfl (Or.inl rfl)

/-- C9: if `close` raises inside the `finally` block, the `except`
handler (which covers only the `try` body) does not catch it: the
observable trace is exactly what it would have been had `close`
succeeded — in particular no `Error:` line is printed for this error —
the exception escapes `get_react_docs`, and the process exits with a
nonzero status.  `close` is nevertheless called, including on the
connect-failure path, where the connection was never established. -/
theorem close_error_escapes_uncaught (w : World) (e : PyError)
    (hc : w.constructorOutcome = none) (h : w.closeOutcome = some e) :
    outcome w = Outcome.raised e
    ∧ exitCode w = 1
    ∧ trace w = trace (eraseCloseError w)
    ∧ Event.close ∈ trace w := by
  rcases hcn : w.connectOutcome with _ | e1
  · rcases htc : w.toolCallOutcome with e2 | r
    · cases e2 <;>
        simp [trace, outcome, exitCode, get_react_docs, tryBody, handlerStep,
              finallyStep, eraseCloseError, isException, hc, h, hcn, htc]
    · simp [trace, outcome, exitCode, get_react_docs, tryBody, handlerStep,
            finallyStep, eraseCloseError, isException, hc, h, hcn, htc]
  · cases e1 <;>
      simp [trace, outcome, exitCode, get_react_docs, tryBody, handlerStep,
            finallyStep, eraseCloseError, isException, hc, h, hcn]

/-- Witness for C9 at the world where both `connect` and `close` fail. -/
theorem close_error_escapes_uncaught_witness :
    outcome wConnectFailCloseFail = Outcome.raised (PyError.otherError "close failed")
    ∧ exitCode wConnectFailCloseFail = 1
    ∧ trace wConnectFailCloseFail = trace (eraseCloseError wConnectFailCloseFail)
    ∧ Event.close ∈ trace wConnectFailCloseFail :=
  close_error_escapes_uncaught wConnectFailCloseFail
    (PyError.otherError "close failed") rfl rfl

end Demo
